import Mathlib

/-!
Verification of the gcf-cloud-build-slack notifier.

The repository contains several JavaScript variants of the same
Cloud-Build-to-Slack notification function.  This file gives a shallow
embedding of each variant that the claims touch:

* `createSlackMessageC` / `subscribeSlackOnBuild` — the complete variant
  (`index.js`, third part: `statusCodes`, two webhooks, tag filtering);
* `createSlackMessageP1` — the variant with the substitution fallback
  chains and the guarded commit link (`src/unnamed/part_001`);
* `createSlackMessageA` / `createSlackMessageB` — the two `index.js`
  variants that reference the undefined variable `repo`;
* `createSlackMessageP0` — the early variant (`src/unnamed/part_000`);
* `eventToBuildE` / `subscribeSlackRaw` — the decode pipeline.

JavaScript semantics are made explicit: absent values are `Option`,
interpolation of an absent value produces the literal "undefined"
(`jsStr`), `a || b` falls through on absent or empty strings (`jsOr`),
and property access on `undefined`, calling a method of `undefined`, or
reading an undefined variable raises an error (`Except JsError`).
-/

/-- Interpolation of a possibly-undefined JS string into a template
literal: `undefined` prints as the literal string "undefined". -/
def jsStr : Option String → String
  | none => "undefined"
  | some s => s

/-- JS truthiness of a possibly-undefined string: `undefined` and the
empty string are falsy, every other string is truthy. -/
def truthy : Option String → Bool
  | none => false
  | some s => !s.isEmpty

/-- JS `a || b` on possibly-undefined strings: returns `a` when truthy,
otherwise `b` (which may itself be undefined or empty). -/
def jsOr (a b : Option String) : Option String :=
  if truthy a then a else b

/-- JS `a || d` with a string-literal default `d`. -/
def jsOrS (a : Option String) (d : String) : String :=
  if truthy a then jsStr a else d

/-- Errors thrown by the embedded JavaScript code. -/
inductive JsError where
  | typeError (msg : String)
  | referenceError (name : String)
deriving Repr, DecidableEq

/-- The `repoSource` descriptor of a build (`projectId`, `repoName`,
`branchName`), every field possibly absent. -/
structure RepoSource where
  projectId : Option String
  repoName : Option String
  branchName : Option String
deriving Repr, DecidableEq

/-- The `resolvedRepoSource` provenance descriptor. -/
structure ResolvedRepoSource where
  commitSha : Option String
  tagName : Option String
deriving Repr, DecidableEq

/-- The `source` field of a build; its `repoSource` key may be absent. -/
structure Source where
  repoSource : Option RepoSource
deriving Repr, DecidableEq

/-- The `sourceProvenance` field of a build. -/
structure SourceProvenance where
  resolvedRepoSource : Option ResolvedRepoSource
deriving Repr, DecidableEq

/-- The substitution keys the code reads; the mapping may carry other
keys, but only these four are ever accessed. -/
structure Substitutions where
  REPO_NAME : Option String
  BRANCH_NAME : Option String
  COMMIT_SHA : Option String
  REVISION_ID : Option String
deriving Repr, DecidableEq

/-- A decoded Build Event (section 3 of the spec).  Every field the code
dereferences optionally is an `Option`.  A build whose `status` key is
absent behaves in this code base exactly like one whose status is the
string "undefined" (it misses every table lookup and every comparison,
and interpolates as "undefined"), so `status` is kept as a plain string
with that sentinel as the default. -/
structure Build where
  id : Option String := none
  status : String := "undefined"
  logUrl : Option String := none
  startTime : Option String := none
  finishTime : Option String := none
  images : Option (List String) := none
  tags : Option (List String) := none
  substitutions : Option Substitutions := none
  source : Option Source := none
  sourceProvenance : Option SourceProvenance := none
deriving Repr, DecidableEq

/-- A Slack mrkdwn text fragment: the JS object holding a type tag
(always the string mrkdwn), the text, and the verbatim flag. -/
structure MText where
  ttype : String
  text : String
  verbatim : Bool
deriving Repr, DecidableEq

/-- A Slack layout block: a section (text and/or fields), a context
block, or a divider. -/
inductive Block where
  | sectionB (text : Option MText) (fields : List MText)
  | contextB (elements : List MText)
  | divider
deriving Repr, DecidableEq

/-- The rendered message: summary text and color where the variant sets
them, plus the ordered block list. -/
structure SlackMessage where
  text : Option String := none
  color : Option String := none
  blocks : List Block
deriving Repr, DecidableEq

instance : Inhabited SlackMessage := ⟨{ blocks := [] }⟩

/-- One entry of the `statusCodes` table of the complete variant. -/
structure StatusCode where
  color : String
  text : String
deriving Repr, DecidableEq

/-- The `statusCodes` table (complete variant).  JS object lookup of a
key that is not present yields `undefined`, hence `Option`. -/
def statusCodes : String → Option StatusCode
  | "CANCELLED" => some ⟨"#fbbc05", "Build cancelled"⟩
  | "FAILURE" => some ⟨"#ea4335", "Build failed"⟩
  | "INTERNAL_ERROR" => some ⟨"#ea4335", "Internal error encountered during build"⟩
  | "QUEUED" => some ⟨"#fbbc05", "New build queued"⟩
  | "SUCCESS" => some ⟨"#34a853", "Build successfully completed"⟩
  | "TIMEOUT" => some ⟨"#ea4335", "Build timed out"⟩
  | "WORKING" => some ⟨"#34a853", "New build in progress"⟩
  | "STATUS_UNKNOWN" => some ⟨"#444444", "Unknown build status"⟩
  | _ => none

/-- The markdown helper of the complete variant (`Markdown.markdown`). -/
def Markdown.markdown (text : String) (verbatim : Bool) : MText :=
  ⟨"mrkdwn", text, verbatim⟩

/-- The field helper of the complete variant (`Markdown.field`). -/
def Markdown.field (key value : String) : MText :=
  Markdown.markdown (key ++ "\n*" ++ value ++ "*") false

/-- The link helper of the complete variant (`Markdown.link`, also the
`mrkdwnLink` of the
other variants): a label-less link when the label is falsy. -/
def Markdown.link (href text : String) : String :=
  if text ≠ "" then "<" ++ href ++ "|" ++ text ++ ">" else "<" ++ href ++ ">"

/-- The repo name the complete variant computes (line 377 of
`index.js`): substitutions only, no `repoSource` fallback. -/
def repoNameC (b : Build) : Option String :=
  b.substitutions.bind Substitutions.REPO_NAME

/-- The branch name the complete variant computes (line 378). -/
def branchNameC (b : Build) : Option String :=
  b.substitutions.bind Substitutions.BRANCH_NAME

/-- The commit sha the complete variant computes (line 379):
`COMMIT_SHA || REVISION_ID` from substitutions. -/
def commitShaC (b : Build) : Option String :=
  jsOr (b.substitutions.bind Substitutions.COMMIT_SHA)
    (b.substitutions.bind Substitutions.REVISION_ID)

/-- The `createSlackMessage` of the complete variant (`index.js` lines
364-471).  The very first step reads `statusCodes[build.status].text`;
when the status has no table entry the lookup yields `undefined` and the
property read throws a TypeError, so the written fallbacks
(`|| build.status`, `|| "#444444"`) are unreachable for unknown
statuses. -/
def createSlackMessageC (b : Build) : Except JsError SlackMessage :=
  match statusCodes b.status with
  | none => .error (.typeError "statusCodes lookup is undefined")
  | some sc =>
    let statusText := if sc.text ≠ "" then sc.text else b.status
    let statusColor := if sc.color ≠ "" then sc.color else "#444444"
    let tags0 := (b.tags.getD []).filter (fun x => !(x.startsWith "trigger-"))
    let isScheduler := tags0.contains "schedule"
    let repoName := repoNameC b
    let branchName := branchNameC b
    let commitSha := commitShaC b
    let oid := String.intercalate ", " (tags0.filter (fun x => x != "schedule"))
    let orgId : Option String := if isScheduler then some oid else none
    let ty := if isScheduler then "Schedule" else "Build"
    let tags1 :=
      if isScheduler then tags0.filter (fun x => x != "schedule" && x != oid)
      else tags0
    let repoSection : List Block :=
      if truthy repoName || truthy branchName || truthy commitSha then
        [ .divider,
          .contextB [Markdown.field "Branch" (jsOrS branchName "—")],
          .contextB [Markdown.field "Commit" (jsOrS commitSha "—")],
          .contextB [Markdown.field "Repo" (jsOrS repoName "—")] ]
      else []
    .ok
      { text := some (statusText ++ ": " ++ ty ++ " for "
          ++ jsStr (jsOr (jsOr orgId branchName) b.id))
        color := some statusColor
        blocks :=
          [ .contextB [Markdown.markdown
              (Markdown.link (jsStr b.logUrl) "Click here to view logs...") false],
            .contextB [Markdown.markdown ("Type: *" ++ ty ++ "*") false,
                       Markdown.markdown ("Status: *" ++ b.status ++ "*") false] ]
          ++ (if truthy orgId then
                [ Block.divider,
                  Block.contextB [Markdown.markdown
                    ("Organization ID\n`" ++ oid ++ "`") false] ]
              else [])
          ++ repoSection
          ++ (if tags1.length > 0 then
                [ Block.divider,
                  Block.contextB [Markdown.field "Tags"
                    (String.intercalate "\n" (tags1.map (fun x => "`" ++ x ++ "`")))] ]
              else []) }

/-- Policy configuration (environment-derived lists, fixed at startup). -/
structure Config where
  notifyStatuses : List String
  failureStatuses : List String
  ignoreTags : List String
  failureConfigured : Bool
deriving Repr, DecidableEq

/-- The default policy configuration (no environment overrides, no
failure webhook). -/
def defaultConfig : Config :=
  { notifyStatuses := ["SUCCESS", "FAILURE", "INTERNAL_ERROR", "TIMEOUT", "CANCELLED"]
    failureStatuses := ["FAILURE", "INTERNAL_ERROR", "TIMEOUT"]
    ignoreTags := ["schedule"]
    failureConfigured := false }

/-- Lines 313-314 of `index.js`: the ignore-tag suppression —
`xTags.length > 0 && status === "SUCCESS"` where `xTags` is the
intersection of the build tags (defaulted to empty) with the configured
ignore tags. -/
def suppressedByTags (cfg : Config) (b : Build) : Bool :=
  decide (0 < ((b.tags.getD []).filter (fun v => cfg.ignoreTags.contains v)).length)
    && b.status == "SUCCESS"

/-- The filtering decision of the complete variant (`index.js` lines
310-320), extracted as the pair the spec calls `shouldNotify`:
`(send, sendToFailureChannel)`. -/
def shouldNotify (cfg : Config) (b : Build) : Bool × Bool :=
  if !(cfg.notifyStatuses.contains b.status) then (false, false)
  else if suppressedByTags cfg b then (false, false)
  else (true, cfg.failureConfigured && cfg.failureStatuses.contains b.status)

/-- One outbound webhook send. -/
inductive Delivery where
  | failure (m : SlackMessage)
  | general (m : SlackMessage)
deriving Repr, DecidableEq

/-- The `subscribeSlack` of the complete variant, after decoding (`index.js`
lines 300-321).  Note the source computes the message (line 307) before
any filtering (lines 311-314); a formatter error therefore aborts the
whole invocation.  The result lists the sends that happen, in order
(failure webhook first, then the general one). -/
def subscribeSlackOnBuild (cfg : Config) (b : Build) : Except JsError (List Delivery) :=
  match createSlackMessageC b with
  | .error e => .error e
  | .ok message =>
    if !(cfg.notifyStatuses.contains b.status) then .ok []
    else if suppressedByTags cfg b then .ok []
    else
      .ok ((if cfg.failureConfigured && cfg.failureStatuses.contains b.status then
              [Delivery.failure message]
            else []) ++ [Delivery.general message])

/-- Leap year test (proleptic Gregorian). -/
def isLeapYear (y : Nat) : Bool :=
  (y % 4 == 0 && y % 100 != 0) || y % 400 == 0

/-- Days in a month. -/
def daysInMonth (y m : Nat) : Nat :=
  if m == 2 then (if isLeapYear y then 29 else 28)
  else if m == 4 || m == 6 || m == 9 || m == 11 then 30
  else 31

/-- Leap years in the range `[1, y]`. -/
def leapsUpTo (y : Nat) : Nat := y / 4 - y / 100 + y / 400

/-- Days from 1970-01-01 to `y`-01-01 (for `y ≥ 1970`). -/
def daysBeforeYear (y : Nat) : Nat :=
  365 * (y - 1970) + (leapsUpTo (y - 1) - leapsUpTo 1969)

/-- Days from `y`-01-01 to `y`-`m`-01. -/
def daysBeforeMonth (y m : Nat) : Nat :=
  (List.range (m - 1)).foldl (fun acc i => acc + daysInMonth y (i + 1)) 0

/-- One decimal digit. -/
def digitVal (c : Char) : Option Nat :=
  if c.isDigit then some (c.toNat - 48) else none

/-- Two decimal digits. -/
def parse2 : List Char → Option (Nat × List Char)
  | a :: b :: rest =>
    match digitVal a, digitVal b with
    | some x, some y => some (10 * x + y, rest)
    | _, _ => none
  | _ => none

/-- Four decimal digits. -/
def parse4 : List Char → Option (Nat × List Char)
  | a :: b :: c :: d :: rest =>
    match digitVal a, digitVal b, digitVal c, digitVal d with
    | some w, some x, some y, some z => some (1000 * w + 100 * x + 10 * y + z, rest)
    | _, _, _, _ => none
  | _ => none

/-- The UTC offset suffix of an ISO-8601 timestamp, in seconds:
`Z`, `+hh:mm` or `-hh:mm` followed by end of input. -/
def parseZone : List Char → Option Int
  | ['Z'] => some 0
  | '+' :: rest =>
    match parse2 rest with
    | some (h, ':' :: rest2) =>
      match parse2 rest2 with
      | some (mi, []) => some (Int.ofNat (3600 * h + 60 * mi))
      | _ => none
    | _ => none
  | '-' :: rest =>
    match parse2 rest with
    | some (h, ':' :: rest2) =>
      match parse2 rest2 with
      | some (mi, []) => some (-(Int.ofNat (3600 * h + 60 * mi)))
      | _ => none
    | _ => none
  | _ => none

/-- Modelled from the spec: the timestamps are ISO-8601 strings
(section 3) and an external library (`moment`) converts them to Unix
epoch seconds.  This parses `YYYY-MM-DDThh:mm:ss`, an optional fraction
(truncated), and a `Z` or `±hh:mm` offset, for years from 1970 on;
anything else is treated as unparseable (epoch `NaN`). -/
def isoToUnix (s : String) : Option Int := do
  let (y, r1) ← parse4 s.data
  let r2 ← if r1.head? = some '-' then some r1.tail else none
  let (mo, r3) ← parse2 r2
  let r4 ← if r3.head? = some '-' then some r3.tail else none
  let (d, r5) ← parse2 r4
  let r6 ← if r5.head? = some 'T' then some r5.tail else none
  let (h, r7) ← parse2 r6
  let r8 ← if r7.head? = some ':' then some r7.tail else none
  let (mi, r9) ← parse2 r8
  let r10 ← if r9.head? = some ':' then some r9.tail else none
  let (se, r11) ← parse2 r10
  let r12 ←
    match r11 with
    | '.' :: rest =>
      let frac := rest.takeWhile Char.isDigit
      if frac.isEmpty then none else some (rest.drop frac.length)
    | _ => some r11
  let off ← parseZone r12
  if 1970 ≤ y ∧ 1 ≤ mo ∧ mo ≤ 12 ∧ 1 ≤ d ∧ d ≤ daysInMonth y mo
      ∧ h ≤ 23 ∧ mi ≤ 59 ∧ se ≤ 59 then
    let days := daysBeforeYear y + daysBeforeMonth y mo + (d - 1)
    some (Int.ofNat (86400 * days + 3600 * h + 60 * mi + se) - off)
  else none

/-- What `moment(text).unix()` interpolates: the epoch seconds of the
parsed timestamp, `NaN` for an unparseable string, and the current time
(`now`, a parameter of the model) when the input is `undefined`, since
`moment(undefined)` is the current instant. -/
def momentUnixStr (now : Int) (t : Option String) : String :=
  match t with
  | none => toString now
  | some s =>
    match isoToUnix s with
    | some n => toString n
    | none => "NaN"

/-- The `mrkdwn` helper as defined inside the non-complete variants. -/
def mrkdwn (text : String) (verbatim : Bool) : MText :=
  ⟨"mrkdwn", text, verbatim⟩

/-- The `mrkdwnField` helper of the non-complete variants. -/
def mrkdwnField (key value : String) : MText :=
  mrkdwn ("*" ++ key ++ ":*\n" ++ value ++ "\n") false

/-- The `<!date^...^{...} {...}|fallback>` token built by the
`timestamp` helpers of the variants that render timestamps. -/
def mrkdwnTimestamp (now : Int) (t : Option String) : String :=
  "<!date^" ++ momentUnixStr now t
    ++ "^\x7bdate_short_pretty\x7d \x7btime_secs\x7d|" ++ jsStr t ++ ">"

/-- The `repoSource` descriptor reached through `source`, as the
part_001 variant reads it (`source || {}` then `repoSource || {}`). -/
def repoSrcOf (b : Build) : Option RepoSource :=
  b.source.bind Source.repoSource

/-- The `resolvedRepoSource` descriptor reached through
`sourceProvenance`. -/
def resolvedOf (b : Build) : Option ResolvedRepoSource :=
  b.sourceProvenance.bind SourceProvenance.resolvedRepoSource

/-- part_001, line 63: `repoName = repoName || substitutions.REPO_NAME`. -/
def repoNameP1 (b : Build) : Option String :=
  jsOr ((repoSrcOf b).bind RepoSource.repoName)
    (b.substitutions.bind Substitutions.REPO_NAME)

/-- part_001, line 64: branch fallback chain. -/
def branchNameP1 (b : Build) : Option String :=
  jsOr ((repoSrcOf b).bind RepoSource.branchName)
    (b.substitutions.bind Substitutions.BRANCH_NAME)

/-- part_001, line 65:
`commitSha = commitSha || substitutions.COMMIT_SHA || substitutions.REVISION_ID`. -/
def commitShaP1 (b : Build) : Option String :=
  jsOr (jsOr ((resolvedOf b).bind ResolvedRepoSource.commitSha)
        (b.substitutions.bind Substitutions.COMMIT_SHA))
    (b.substitutions.bind Substitutions.REVISION_ID)

/-- part_001, line 89: `hasRepoInfo = !!(projectId && repoName && commitSha)`. -/
def hasRepoInfoP1 (b : Build) : Bool :=
  truthy ((repoSrcOf b).bind RepoSource.projectId)
    && truthy (repoNameP1 b) && truthy (commitShaP1 b)

/-- part_001, lines 90-92: the commit link, built only when project,
repo and sha are all truthy, otherwise the literal `n/a`. -/
def commitLinkP1 (b : Build) : String :=
  if hasRepoInfoP1 b then
    Markdown.link
      ("https://source.cloud.google.com/"
        ++ jsStr ((repoSrcOf b).bind RepoSource.projectId) ++ "/"
        ++ jsStr (repoNameP1 b) ++ "/+/" ++ jsStr (commitShaP1 b))
      ("`" ++ (jsStr (commitShaP1 b)).take 7 ++ "`")
  else "n/a"

/-- The `createSlackMessage` of the part_001 variant (lines 56-135).  Every
access is guarded, so this formatter is total. -/
def createSlackMessageP1 (now : Int) (b : Build) : SlackMessage :=
  { text := some (b.status ++ ": " ++ jsStr (jsOr (branchNameP1 b) b.id))
    color := none
    blocks :=
      [ .sectionB (some (mrkdwn (Markdown.link (jsStr b.logUrl) "*Build Logs*") false)) [],
        .sectionB none
          [ mrkdwnField "Status" b.status,
            mrkdwnField "Repo" (jsOrS (repoNameP1 b) "n/a"),
            mrkdwnField "Branch" (jsOrS (branchNameP1 b) "n/a"),
            mrkdwnField "Images" (String.intercalate "\n" (b.images.getD [])),
            mrkdwnField "Commit" (commitLinkP1 b),
            mrkdwnField "Tag" (jsOrS ((resolvedOf b).bind ResolvedRepoSource.tagName) "n/a"),
            mrkdwnField "Start" (mrkdwnTimestamp now b.startTime),
            mrkdwnField "Finish" (mrkdwnTimestamp now b.finishTime) ] ] }

/-- First `index.js` variant, lines 39-40 and 64-70: the destructuring
reads (`build.source.repoSource || {}` throws when `source` itself is
absent, likewise `sourceProvenance`), then the commit link.  The link is
built whenever `repoSource` is present — interpolating "undefined" for
any absent component — and `commitSha.substring(0, 7)` throws when the
sha is absent; the literal `n/a` appears only when `repoSource` is
absent. -/
def commitLinkA (b : Build) : Except JsError String :=
  match b.source with
  | none => .error (.typeError "cannot read repoSource of undefined")
  | some src =>
    match b.sourceProvenance with
    | none => .error (.typeError "cannot read resolvedRepoSource of undefined")
    | some sp =>
      let rsv := src.repoSource.getD ⟨none, none, none⟩
      let rrsv := sp.resolvedRepoSource.getD ⟨none, none⟩
      if src.repoSource.isSome then
        let commitUrl := "https://source.cloud.google.com/"
          ++ jsStr rsv.projectId ++ "/" ++ jsStr rsv.repoName ++ "/+/"
          ++ jsStr rrsv.commitSha
        match rrsv.commitSha with
        | none => .error (.typeError "substring of undefined")
        | some c => .ok (Markdown.link commitUrl ("`" ++ c.take 7 ++ "`"))
      else .ok "n/a"

/-- The `createSlackMessage` of the first `index.js` variant (lines 37-113).
After the destructuring and commit-link computations, the fields array
evaluates left to right: the `Status` field, then `repo || "n/a"`
(line 84) — but no variable `repo` is defined anywhere in that module,
so evaluation raises a ReferenceError; the remaining fields and the
return statement are unreachable, and no message is ever produced. -/
def createSlackMessageA (b : Build) : Except JsError SlackMessage :=
  match commitLinkA b with
  | .error e => .error e
  | .ok _commitLink => .error (.referenceError "repo")

/-- The `createSlackMessage` of the second `index.js` variant (lines
156-218).  The destructurings have no `|| {}` guard, so absent
descriptors throw; `commitSha.substring(0, 7)` (line 175) throws on an
absent sha; otherwise evaluation of the fields array reaches `repo`
(line 189), which is undefined, and raises a ReferenceError.  No path
returns a message. -/
def createSlackMessageB (b : Build) : Except JsError SlackMessage :=
  match b.source with
  | none => .error (.typeError "cannot read repoSource of undefined")
  | some src =>
    match src.repoSource with
    | none => .error (.typeError "cannot destructure undefined repoSource")
    | some _rs =>
      match b.sourceProvenance with
      | none => .error (.typeError "cannot read resolvedRepoSource of undefined")
      | some sp =>
        match sp.resolvedRepoSource with
        | none => .error (.typeError "cannot destructure undefined resolvedRepoSource")
        | some rrs =>
          match rrs.commitSha with
          | none => .error (.typeError "substring of undefined")
          | some _c => .error (.referenceError "repo")

/-- The `createSlackMessage` of the part_000 variant (lines 43-103).  The
unguarded destructurings throw when `source`, `repoSource`,
`sourceProvenance` or `resolvedRepoSource` is absent, the substring and
`images.join` calls throw on absent values, and absent `repoName`,
`branchName` or `tagName` render as the literal "undefined" — not as a
placeholder. -/
def createSlackMessageP0 (now : Int) (b : Build) : Except JsError SlackMessage :=
  match b.source with
  | none => .error (.typeError "cannot read repoSource of undefined")
  | some src =>
    match src.repoSource with
    | none => .error (.typeError "cannot destructure undefined repoSource")
    | some rs =>
      match b.sourceProvenance with
      | none => .error (.typeError "cannot read resolvedRepoSource of undefined")
      | some sp =>
        match sp.resolvedRepoSource with
        | none => .error (.typeError "cannot destructure undefined resolvedRepoSource")
        | some rrs =>
          match rrs.commitSha with
          | none => .error (.typeError "substring of undefined")
          | some c =>
            match b.images with
            | none => .error (.typeError "join of undefined")
            | some images =>
              let commitUrl := "https://source.cloud.google.com/"
                ++ jsStr rs.projectId ++ "/" ++ jsStr rs.repoName ++ "/+/" ++ c
              .ok
                { text := none
                  color := none
                  blocks :=
                    [ .sectionB (some (mrkdwn
                        ("*<" ++ jsStr b.logUrl ++ "|Build Logs>*\n") false)) [],
                      .sectionB none
                        [ mrkdwn ("*Status:*\n" ++ b.status ++ "\n") false,
                          mrkdwn ("*Repo:*\n" ++ jsStr rs.repoName ++ "\n") false,
                          mrkdwn ("*Branch:*\n" ++ jsStr rs.branchName ++ "\n") false,
                          mrkdwn ("*Images:*\n" ++ String.intercalate "\n" images ++ "\n") true,
                          mrkdwn ("*Commit:*\n<" ++ commitUrl ++ "|`" ++ c.take 7 ++ "`>\n") false,
                          mrkdwn ("*Tag:*\n" ++ jsStr rrs.tagName ++ "\n") false,
                          mrkdwn ("*Start:*\n" ++ mrkdwnTimestamp now b.startTime ++ "\n") false,
                          mrkdwn ("*Finish:*\n" ++ mrkdwnTimestamp now b.finishTime ++ "\n") false ] ] }

/-- Value of one base64 alphabet character. -/
def b64Val (c : Char) : Option Nat :=
  if 'A' ≤ c ∧ c ≤ 'Z' then some (c.toNat - 65)
  else if 'a' ≤ c ∧ c ≤ 'z' then some (c.toNat - 97 + 26)
  else if '0' ≤ c ∧ c ≤ '9' then some (c.toNat - 48 + 52)
  else if c = '+' then some 62
  else if c = '/' then some 63
  else none

/-- Modelled from the spec: the decoder "decodes base64 to UTF-8 text"
and a malformed base64 payload is an error (section 4.1); the actual
decoding is done by the external runtime (`Buffer.from` with base64).
Strict base64: groups of four alphabet characters, with `=` padding only
in the final group. -/
def base64Bytes : List Char → Option (List Nat)
  | [] => some []
  | a :: b :: c :: d :: rest => do
    let va ← b64Val a
    let vb ← b64Val b
    if c = '=' then
      if d = '=' ∧ rest = [] then some [va * 4 + vb / 16] else none
    else do
      let vc ← b64Val c
      if d = '=' then
        if rest = [] then some [va * 4 + vb / 16, (vb % 16) * 16 + vc / 4] else none
      else do
        let vd ← b64Val d
        let tail ← base64Bytes rest
        some ([va * 4 + vb / 16, (vb % 16) * 16 + vc / 4, (vc % 4) * 64 + vd] ++ tail)
  | _ => none

/-- Base64 decoding of a payload string. -/
def base64Decode (s : String) : Option (List Nat) :=
  base64Bytes s.data

/-- Is `n` a UTF-8 continuation byte? -/
def contByte (n : Nat) : Bool := 128 ≤ n && n < 192

/-- Allowed second byte after a three-byte lead (excludes overlong
encodings and surrogates). -/
def utf8ThirdOk (lead c : Nat) : Bool :=
  if lead == 224 then 160 ≤ c && c < 192
  else if lead == 237 then 128 ≤ c && c < 160
  else contByte c

/-- Allowed second byte after a four-byte lead. -/
def utf8FourthOk (lead c : Nat) : Bool :=
  if lead == 240 then 144 ≤ c && c < 192
  else if lead == 244 then 128 ≤ c && c < 144
  else contByte c

/-- Modelled from the spec: the decoded bytes are interpreted as UTF-8
text (`Buffer.toString()` of the runtime, which never fails — invalid
or truncated sequences become U+FFFD). -/
def utf8Lossy : List Nat → List Char
  | [] => []
  | b :: rest =>
    if b < 128 then Char.ofNat b :: utf8Lossy rest
    else if 194 ≤ b && b ≤ 223 then
      match rest with
      | c :: rest2 =>
        (if contByte c then Char.ofNat ((b - 192) * 64 + (c - 128))
         else Char.ofNat 0xFFFD) :: utf8Lossy rest2
      | [] => [Char.ofNat 0xFFFD]
    else if 224 ≤ b && b ≤ 239 then
      match rest with
      | c :: d :: rest2 =>
        (if utf8ThirdOk b c && contByte d then
           Char.ofNat (((b - 224) * 64 + (c - 128)) * 64 + (d - 128))
         else Char.ofNat 0xFFFD) :: utf8Lossy rest2
      | _ => [Char.ofNat 0xFFFD]
    else if 240 ≤ b && b ≤ 244 then
      match rest with
      | c :: d :: e :: rest2 =>
        (if utf8FourthOk b c && contByte d && contByte e then
           Char.ofNat ((((b - 240) * 64 + (c - 128)) * 64 + (d - 128)) * 64 + (e - 128))
         else Char.ofNat 0xFFFD) :: utf8Lossy rest2
      | _ => [Char.ofNat 0xFFFD]
    else Char.ofNat 0xFFFD :: utf8Lossy rest

/-- The decoded text of a byte list. -/
def utf8ToString (bs : List Nat) : String :=
  String.mk (utf8Lossy bs)

/-- A JSON document, as the external `JSON.parse` produces it.  Numbers
keep their source lexeme (no claim inspects numeric values). -/
inductive Json where
  | null
  | bool (b : Bool)
  | num (lexeme : String)
  | str (s : String)
  | arr (elems : List Json)
  | obj (members : List (String × Json))

/-- JSON whitespace. -/
def isJsonWs (c : Char) : Bool :=
  c = ' ' || c = '\t' || c = '\n' || c = '\r'

/-- Skip JSON whitespace. -/
def skipWs (cs : List Char) : List Char :=
  cs.dropWhile isJsonWs

/-- One hexadecimal digit. -/
def hexVal (c : Char) : Option Nat :=
  if c.isDigit then some (c.toNat - 48)
  else if 'a' ≤ c ∧ c ≤ 'f' then some (c.toNat - 97 + 10)
  else if 'A' ≤ c ∧ c ≤ 'F' then some (c.toNat - 65 + 10)
  else none

/-- The body of a JSON string after the opening quote: returns the
content and the input after the closing quote.  Raw control characters
are rejected, escapes are the JSON ones; a `\u` escape outside the
valid scalar range degrades to the default of `Char.ofNat`. -/
def jsonStringBody : List Char → Option (List Char × List Char)
  | [] => none
  | c :: rest =>
    if c = '"' then some ([], rest)
    else if c = '\\' then
      match rest with
      | [] => none
      | e :: rest2 =>
        if e = 'u' then
          match rest2 with
          | h1 :: h2 :: h3 :: h4 :: rest3 => do
            let v1 ← hexVal h1
            let v2 ← hexVal h2
            let v3 ← hexVal h3
            let v4 ← hexVal h4
            let (body, more) ← jsonStringBody rest3
            some (Char.ofNat (((v1 * 16 + v2) * 16 + v3) * 16 + v4) :: body, more)
          | _ => none
        else do
          let ch ←
            if e = '"' then some '"'
            else if e = '\\' then some '\\'
            else if e = '/' then some '/'
            else if e = 'b' then some (Char.ofNat 8)
            else if e = 'f' then some (Char.ofNat 12)
            else if e = 'n' then some '\n'
            else if e = 'r' then some '\r'
            else if e = 't' then some '\t'
            else none
          let (body, more) ← jsonStringBody rest2
          some (ch :: body, more)
    else if c.toNat < 32 then none
    else do
      let (body, more) ← jsonStringBody rest
      some (c :: body, more)

/-- One or more decimal digits. -/
def jsonDigits (cs : List Char) : Option (List Char × List Char) :=
  let d := cs.takeWhile Char.isDigit
  if d.isEmpty then none else some (d, cs.drop d.length)

/-- A JSON number lexeme: `-? int frac? exp?`. -/
def jsonNumber (cs : List Char) : Option (List Char × List Char) := do
  let (neg, cs1) :=
    match cs with
    | '-' :: r => ([('-' : Char)], r)
    | _ => ([], cs)
  let (ip, cs2) ←
    match cs1 with
    | '0' :: r => some (['0'], r)
    | c :: _ =>
      if c.isDigit then jsonDigits cs1 else none
    | [] => none
  let (fp, cs3) ←
    match cs2 with
    | '.' :: r => do
      let (d, r2) ← jsonDigits r
      some ('.' :: d, r2)
    | _ => some ([], cs2)
  let (ep, cs4) ←
    match cs3 with
    | c :: r =>
      if c = 'e' ∨ c = 'E' then
        match r with
        | s :: r2 =>
          if s = '+' ∨ s = '-' then do
            let (d, r3) ← jsonDigits r2
            some (c :: s :: d, r3)
          else do
            let (d, r3) ← jsonDigits r
            some (c :: d, r3)
        | [] => none
      else some ([], cs3)
    | [] => some ([], cs3)
  some (neg ++ ip ++ fp ++ ep, cs4)

mutual

/-- Recursive-descent JSON value with fuel. -/
def jsonVal : Nat → List Char → Option (Json × List Char)
  | 0, _ => none
  | fuel + 1, cs =>
    let cs := skipWs cs
    if cs.take 4 = ['t', 'r', 'u', 'e'] then some (.bool true, cs.drop 4)
    else if cs.take 5 = ['f', 'a', 'l', 's', 'e'] then some (.bool false, cs.drop 5)
    else if cs.take 4 = ['n', 'u', 'l', 'l'] then some (.null, cs.drop 4)
    else
      match cs with
      | [] => none
      | c :: rest =>
        if c = '"' then do
          let (body, more) ← jsonStringBody rest
          some (.str (String.mk body), more)
        else if c = '{' then
          match skipWs rest with
          | '}' :: more => some (.obj [], more)
          | _ => do
            let (ms, more) ← jsonMembers fuel rest
            some (.obj ms, more)
        else if c = '[' then
          match skipWs rest with
          | ']' :: more => some (.arr [], more)
          | _ => do
            let (xs, more) ← jsonElems fuel rest
            some (.arr xs, more)
        else if c = '-' ∨ c.isDigit then do
          let (lex, more) ← jsonNumber cs
          some (.num (String.mk lex), more)
        else none

/-- Members of a JSON object after the opening brace (non-empty). -/
def jsonMembers : Nat → List Char → Option (List (String × Json) × List Char)
  | 0, _ => none
  | fuel + 1, cs =>
    match skipWs cs with
    | '"' :: rest => do
      let (key, rest2) ← jsonStringBody rest
      match skipWs rest2 with
      | ':' :: rest3 => do
        let (v, rest4) ← jsonVal fuel rest3
        match skipWs rest4 with
        | ',' :: rest5 => do
          let (ms, more) ← jsonMembers fuel rest5
          some ((String.mk key, v) :: ms, more)
        | '}' :: rest5 => some ([(String.mk key, v)], rest5)
        | _ => none
      | _ => none
    | _ => none

/-- Elements of a JSON array after the opening bracket (non-empty). -/
def jsonElems : Nat → List Char → Option (List Json × List Char)
  | 0, _ => none
  | fuel + 1, cs => do
    let (v, rest) ← jsonVal fuel cs
    match skipWs rest with
    | ',' :: rest2 => do
      let (xs, more) ← jsonElems fuel rest2
      some (v :: xs, more)
    | ']' :: rest2 => some ([v], rest2)
    | _ => none

end

/-- Modelled from the spec: "parses as a single JSON-structured
document" — the external `JSON.parse`: one value, surrounded only by
whitespace. -/
def jsonParse (s : String) : Option Json :=
  match jsonVal (s.length + 1) s.data with
  | some (j, rest) => if skipWs rest = [] then some j else none
  | none => none

/-- JS object property lookup on a parsed JSON value: `undefined` when
the value is not an object or lacks the key; with duplicate keys,
`JSON.parse` keeps the last occurrence. -/
def Json.getMember (j : Json) (k : String) : Option Json :=
  match j with
  | .obj ms => ms.reverse.lookup k
  | _ => none

/-- A JSON value read as a string, `undefined` otherwise. -/
def Json.asStr : Json → Option String
  | .str s => some s
  | _ => none

/-- A JSON value read as an array of strings. -/
def Json.asStrList : Json → Option (List String)
  | .arr xs => xs.mapM Json.asStr
  | _ => none

/-- The dynamic field accesses the handlers perform on the decoded
document, gathered into the `Build` record (missing or mistyped fields
behave like `undefined`). -/
def buildOfJson (j : Json) : Build :=
  { id := (j.getMember "id").bind Json.asStr
    status := ((j.getMember "status").bind Json.asStr).getD "undefined"
    logUrl := (j.getMember "logUrl").bind Json.asStr
    startTime := (j.getMember "startTime").bind Json.asStr
    finishTime := (j.getMember "finishTime").bind Json.asStr
    images := (j.getMember "images").bind Json.asStrList
    tags := (j.getMember "tags").bind Json.asStrList
    substitutions := (j.getMember "substitutions").map (fun s =>
      { REPO_NAME := (s.getMember "REPO_NAME").bind Json.asStr
        BRANCH_NAME := (s.getMember "BRANCH_NAME").bind Json.asStr
        COMMIT_SHA := (s.getMember "COMMIT_SHA").bind Json.asStr
        REVISION_ID := (s.getMember "REVISION_ID").bind Json.asStr })
    source := (j.getMember "source").map (fun s =>
      { repoSource := (s.getMember "repoSource").map (fun r =>
          { projectId := (r.getMember "projectId").bind Json.asStr
            repoName := (r.getMember "repoName").bind Json.asStr
            branchName := (r.getMember "branchName").bind Json.asStr }) })
    sourceProvenance := (j.getMember "sourceProvenance").map (fun s =>
      { resolvedRepoSource := (s.getMember "resolvedRepoSource").map (fun r =>
          { commitSha := (r.getMember "commitSha").bind Json.asStr
            tagName := (r.getMember "tagName").bind Json.asStr }) }) }

/-- The decoder error of section 4.1. -/
inductive DecodeError where
  | badBase64
  | badJsonText
deriving Repr, DecidableEq

/-- The decoder `eventToBuild` (`index.js` lines 324-328):
decode base64, then parse the text as JSON.  It fails when the
base64 payload is malformed or the decoded text is not valid JSON, and
otherwise returns the parsed document unchanged — no validation. -/
def eventToBuildE (data : String) : Except DecodeError Json :=
  match base64Decode data with
  | none => .error .badBase64
  | some bytes =>
    match jsonParse (utf8ToString bytes) with
    | none => .error .badJsonText
    | some j => .ok j

/-- An error escaping a whole invocation of the handler. -/
inductive HandlerError where
  | decode (e : DecodeError)
  | js (e : JsError)
deriving Repr, DecidableEq

/-- The `subscribeSlack` of the complete variant, from the raw event payload:
decode, then format and filter.  A decode failure aborts the invocation
with no partial result and no delivery. -/
def subscribeSlackRaw (cfg : Config) (data : String) : Except HandlerError (List Delivery) :=
  match eventToBuildE data with
  | .error e => .error (.decode e)
  | .ok j =>
    match subscribeSlackOnBuild cfg (buildOfJson j) with
    | .error e => .error (.js e)
    | .ok ds => .ok ds

/-- The label/value fragments carried by a block. -/
def blockFields : Block → List MText
  | .sectionB _ fs => fs
  | .contextB es => es
  | .divider => []

/-- Fragment `j` of block `i` of a rendered message. -/
def messageField (m : SlackMessage) (i j : Nat) : Option MText :=
  (m.blocks[i]?).bind fun blk => (blockFields blk)[j]?

/-- A build with an unrecognized status, otherwise well-formed. -/
def bogusStatusBuild : Build :=
  { id := some "b-1", status := "BOGUS", logUrl := some "https://logs.example/b-1" }

/-- A successful build that carries no source descriptor at all. -/
def noSourceBuild : Build :=
  { id := some "b-2", status := "SUCCESS", logUrl := some "https://logs.example/b-2",
    images := some [] }

/-- Claim C1: the spec requires `createSlackMessage` to be a total
function over every section-3 build shape, rendering absences as
placeholders.  The code is not: the complete variant throws a TypeError
on any unrecognized status (the `statusCodes[build.status].text` read of
an undefined lookup), and the part_000 variant throws on a build with no
source descriptor.  This theorem evaluates both formatters at such
failing inputs. -/
theorem createSlackMessageNotTotal :
    createSlackMessageC bogusStatusBuild =
        .error (.typeError "statusCodes lookup is undefined") ∧
      createSlackMessageP0 0 noSourceBuild =
        .error (.typeError "cannot read repoSource of undefined") :=
  ⟨rfl, rfl⟩

/-- Claim C2: the spec says status "BOGUS" renders the description
"Unknown build status" with color `#444444`.  The status table does
contain that fallback entry (under the key `STATUS_UNKNOWN`), and the
written `|| "#444444"` default shows the intent, but the lookup
`statusCodes["BOGUS"]` is `undefined` and reading `.text` from it throws
before any fallback applies: the formatter crashes instead of rendering
the fallback. -/
theorem unknownStatusThrowsInsteadOfFallback :
    statusCodes "BOGUS" = none ∧
      statusCodes "STATUS_UNKNOWN" = some ⟨"#444444", "Unknown build status"⟩ ∧
      createSlackMessageC { status := "BOGUS" } =
        .error (.typeError "statusCodes lookup is undefined") :=
  ⟨rfl, rfl, rfl⟩

/-- A build whose source descriptor names a repo while substitutions are
absent — the input separating the two fallback behaviours. -/
def sourceOnlyBuild : Build :=
  { id := some "b-3", status := "SUCCESS",
    source := some ⟨some ⟨none, some "from-source", none⟩⟩ }

/-- Claim C6, counterexample: the claimed chain
`repoSource.repoName ?? substitutions.REPO_NAME ?? n/a` gives
"from-source" on `sourceOnlyBuild`, but the complete variant reads
substitutions only — it computes no repo name and emits no
repository block at all (the message has just its two base blocks). -/
theorem completeVariantIgnoresRepoSource :
    jsOr ((sourceOnlyBuild.source.bind Source.repoSource).bind RepoSource.repoName)
        (sourceOnlyBuild.substitutions.bind Substitutions.REPO_NAME) = some "from-source" ∧
      repoNameC sourceOnlyBuild = none ∧
      (createSlackMessageC sourceOnlyBuild).map (fun m => m.blocks.length) = .ok 2 :=
  ⟨rfl, rfl, rfl⟩

/-- Claim C6, amended: the claimed fallback chains are the part_001
formatter (with JS truthiness, so empty strings also fall through, and
an absent result rendering as `n/a`); the complete variant draws
`repoName`, `branchName` and `commitSha` from substitutions only and its
output is independent of the source descriptor. -/
theorem fallbackChains :
    (∀ (now : Int) (b : Build),
      messageField (createSlackMessageP1 now b) 1 1 =
        some (mrkdwnField "Repo"
          (jsOrS (jsOr ((b.source.bind Source.repoSource).bind RepoSource.repoName)
            (b.substitutions.bind Substitutions.REPO_NAME)) "n/a")) ∧
      messageField (createSlackMessageP1 now b) 1 2 =
        some (mrkdwnField "Branch"
          (jsOrS (jsOr ((b.source.bind Source.repoSource).bind RepoSource.branchName)
            (b.substitutions.bind Substitutions.BRANCH_NAME)) "n/a")) ∧
      commitShaP1 b =
        jsOr (jsOr ((b.sourceProvenance.bind SourceProvenance.resolvedRepoSource).bind
            ResolvedRepoSource.commitSha)
          (b.substitutions.bind Substitutions.COMMIT_SHA))
          (b.substitutions.bind Substitutions.REVISION_ID) ∧
      messageField (createSlackMessageP1 now b) 1 4 =
        some (mrkdwnField "Commit" (commitLinkP1 b))) ∧
    (∀ (b : Build) (src : Option Source),
      createSlackMessageC { b with source := src } = createSlackMessageC b) :=
  ⟨fun _ _ => ⟨rfl, rfl, rfl, rfl⟩, fun _ _ => rfl⟩

/-- The source descriptor of `partialLinkBuild`: repo and branch known,
project id absent. -/
def partialLinkRepoSource : RepoSource := ⟨none, some "svc", some "main"⟩

/-- A build with a source descriptor that lacks `projectId` but has a
resolved commit sha. -/
def partialLinkBuild : Build :=
  { id := some "b-4", status := "SUCCESS",
    source := some ⟨some partialLinkRepoSource⟩,
    sourceProvenance := some ⟨some ⟨some "abcdef1234567", none⟩⟩ }

/-- Claim C7, counterexample: `projectId` is absent, yet the first
`index.js` variant (lines 64-70) still renders the commit field as a
link — with the literal "undefined" interpolated into the target —
rather than the literal `n/a`. -/
theorem partialCommitLinkRendered :
    (partialLinkBuild.source.bind Source.repoSource).bind RepoSource.projectId = none ∧
      commitLinkA partialLinkBuild =
        .ok "<https://source.cloud.google.com/undefined/svc/+/abcdef1234567|`abcdef1`>" :=
  ⟨rfl, rfl⟩

/-- Claim C7, amended: the all-three-present guard is the part_001
variant: its commit field is the guarded link (or the literal `n/a`),
built from the post-fallback repo name and sha.  In the first `index.js`
variant the commit field is a link whenever the source-repository
descriptor is present at all, interpolating "undefined" for missing
components. -/
theorem commitLinkGuard :
    (∀ (now : Int) (b : Build),
      messageField (createSlackMessageP1 now b) 1 4 =
        some (mrkdwnField "Commit"
          (if truthy ((b.source.bind Source.repoSource).bind RepoSource.projectId)
              && truthy (repoNameP1 b) && truthy (commitShaP1 b) then
            Markdown.link
              ("https://source.cloud.google.com/"
                ++ jsStr ((b.source.bind Source.repoSource).bind RepoSource.projectId)
                ++ "/" ++ jsStr (repoNameP1 b) ++ "/+/" ++ jsStr (commitShaP1 b))
              ("`" ++ (jsStr (commitShaP1 b)).take 7 ++ "`")
          else "n/a"))) ∧
    (∀ (b : Build) (src : Source) (sp : SourceProvenance) (rs : RepoSource) (c : String),
      b.source = some src → src.repoSource = some rs →
      b.sourceProvenance = some sp →
      sp.resolvedRepoSource.bind ResolvedRepoSource.commitSha = some c →
      commitLinkA b =
        .ok (Markdown.link
          ("https://source.cloud.google.com/" ++ jsStr rs.projectId ++ "/"
            ++ jsStr rs.repoName ++ "/+/" ++ c)
          ("`" ++ c.take 7 ++ "`"))) := by
  constructor
  · intro now b
    rfl
  · intro b src sp rs c hsrc hrs hsp hc
    cases hrr : sp.resolvedRepoSource with
    | none => rw [hrr] at hc; cases hc
    | some rrs =>
      rw [hrr] at hc
      simp only [Option.some_bind] at hc
      simp [commitLinkA, hsrc, hsp, hrs, hrr, hc, jsStr]

/-- Claim C7, witness for the amended theorem: at `partialLinkBuild` the
hypotheses hold concretely and the first-variant commit field is the
partially-formed link. -/
theorem commitLinkGuardWitness :
    commitLinkA partialLinkBuild =
      .ok (Markdown.link
        ("https://source.cloud.google.com/" ++ jsStr partialLinkRepoSource.projectId ++ "/"
          ++ jsStr partialLinkRepoSource.repoName ++ "/+/" ++ "abcdef1234567")
        ("`" ++ ("abcdef1234567").take 7 ++ "`")) :=
  commitLinkGuard.2 partialLinkBuild ⟨some partialLinkRepoSource⟩
    ⟨some ⟨some "abcdef1234567", none⟩⟩ partialLinkRepoSource "abcdef1234567"
    rfl rfl rfl rfl

/-- A success build whose tags intersect the ignore list becomes
suppressed in the sense of the code (`xTags` non-empty). -/
theorem suppressedByTags_of_mem (cfg : Config) (b : Build) (t : String)
    (hs : b.status = "SUCCESS") (ht : t ∈ b.tags.getD []) (hig : t ∈ cfg.ignoreTags) :
    suppressedByTags cfg b = true := by
  have hmem : t ∈ (b.tags.getD []).filter (fun v => cfg.ignoreTags.contains v) :=
    List.mem_filter.mpr ⟨ht, List.elem_iff.mpr hig⟩
  have hx : 0 < ((b.tags.getD []).filter (fun v => cfg.ignoreTags.contains v)).length :=
    List.length_pos.mpr (List.ne_nil_of_mem hmem)
  unfold suppressedByTags
  rw [hs]
  simpa using hx

/-- Claim C3: a non-empty intersection of the build tags with the
configured ignore tags suppresses a SUCCESS build entirely — the
decision is `(false, false)` and no delivery happens — while the same
tags with status FAILURE still notify (whenever FAILURE is in the
notify set, as it is by default). -/
theorem ignoreTagsSuppressOnlySuccess (cfg : Config) (b : Build) (t : String)
    (hs : b.status = "SUCCESS") (ht : t ∈ b.tags.getD []) (hig : t ∈ cfg.ignoreTags) :
    shouldNotify cfg b = (false, false) ∧
      subscribeSlackOnBuild cfg b = .ok [] ∧
      ("FAILURE" ∈ cfg.notifyStatuses →
        (shouldNotify cfg { b with status := "FAILURE" }).1 = true) := by
  have hsup : suppressedByTags cfg b = true := suppressedByTags_of_mem cfg b t hs ht hig
  refine ⟨?_, ?_, ?_⟩
  · unfold shouldNotify
    cases hc : cfg.notifyStatuses.contains b.status with
    | false => simp [hc]
    | true => simp [hc, hsup]
  · have hsc : statusCodes b.status = some ⟨"#34a853", "Build successfully completed"⟩ := by
      rw [hs]
      rfl
    unfold subscribeSlackOnBuild createSlackMessageC
    rw [hsc]
    cases hc : cfg.notifyStatuses.contains b.status with
    | false => simp [hc]
    | true => simp [hc, hsup]
  · intro hf
    have hns : suppressedByTags cfg { b with status := "FAILURE" } = false := by
      simp [suppressedByTags]
    unfold shouldNotify
    simp [hf, hns]

/-- Claim C3, witness: the default configuration, a SUCCESS build tagged
`schedule`. -/
theorem ignoreTagsSuppressOnlySuccessWitness :
    shouldNotify defaultConfig { status := "SUCCESS", tags := some ["schedule"] } = (false, false) ∧
      subscribeSlackOnBuild defaultConfig { status := "SUCCESS", tags := some ["schedule"] } = .ok [] ∧
      (shouldNotify defaultConfig { status := "FAILURE", tags := some ["schedule"] }).1 = true := by
  obtain ⟨h1, h2, h3⟩ :=
    ignoreTagsSuppressOnlySuccess defaultConfig
      { status := "SUCCESS", tags := some ["schedule"] } "schedule"
      rfl (by simp) (by simp [defaultConfig])
  exact ⟨h1, h2, h3 (by simp [defaultConfig])⟩

/-- Claim C4: a status outside the configured notify set — including
every unrecognized status not explicitly added — yields the decision
`(false, false)`, and whenever the invocation completes at all, its
delivery list is empty. -/
theorem statusOutsideNotifySetSilent (cfg : Config) (b : Build)
    (h : b.status ∉ cfg.notifyStatuses) :
    shouldNotify cfg b = (false, false) ∧
      (∀ ds, subscribeSlackOnBuild cfg b = .ok ds → ds = []) := by
  constructor
  · unfold shouldNotify
    simp [h]
  · intro ds hds
    unfold subscribeSlackOnBuild at hds
    cases hcm : createSlackMessageC b with
    | error e => rw [hcm] at hds; cases hds
    | ok m =>
      rw [hcm] at hds
      simp [h] at hds
      exact hds

/-- Claim C4, witness: status QUEUED is outside the default notify set;
the decision is `(false, false)` and the completed invocation delivers
nothing. -/
theorem statusOutsideNotifySetSilentWitness :
    shouldNotify defaultConfig { status := "QUEUED" } = (false, false) ∧
      subscribeSlackOnBuild defaultConfig { status := "QUEUED" } = .ok [] :=
  ⟨(statusOutsideNotifySetSilent defaultConfig { status := "QUEUED" } (by decide)).1, rfl⟩

/-- Claim C5: once the policy passes (`send = true`), the failure
channel receives the message exactly when the failure webhook is
configured and the status is in the failure set — and the general
channel receives the same message in every case: the two deliveries are
cumulative, not mutually exclusive. -/
theorem failureChannelCumulative (cfg : Config) (b : Build) (m : SlackMessage)
    (hsend : (shouldNotify cfg b).1 = true)
    (hm : createSlackMessageC b = .ok m) :
    subscribeSlackOnBuild cfg b =
      .ok ((if cfg.failureConfigured && cfg.failureStatuses.contains b.status then
              [Delivery.failure m]
            else []) ++ [Delivery.general m]) := by
  unfold shouldNotify at hsend
  unfold subscribeSlackOnBuild
  rw [hm]
  cases hc : cfg.notifyStatuses.contains b.status with
  | false => rw [hc] at hsend; simp at hsend
  | true =>
    rw [hc] at hsend
    cases hsup : suppressedByTags cfg b with
    | true => rw [hsup] at hsend; simp at hsend
    | false => simp [hc, hsup]

/-- The default configuration plus a configured failure webhook. -/
def failureConfig : Config :=
  { notifyStatuses := ["SUCCESS", "FAILURE", "INTERNAL_ERROR", "TIMEOUT", "CANCELLED"]
    failureStatuses := ["FAILURE", "INTERNAL_ERROR", "TIMEOUT"]
    ignoreTags := ["schedule"]
    failureConfigured := true }

/-- A minimal FAILURE build. -/
def failureBuild : Build := { status := "FAILURE" }

/-- The message the complete variant renders for `failureBuild`. -/
def failureBuildMessage : SlackMessage :=
  match createSlackMessageC failureBuild with
  | .ok m => m
  | .error _ => default

/-- Claim C5, witness: with the failure webhook configured and a FAILURE
build, both channels receive the same rendered message, failure webhook
first. -/
theorem failureChannelCumulativeWitness :
    subscribeSlackOnBuild failureConfig failureBuild =
      .ok [Delivery.failure failureBuildMessage, Delivery.general failureBuildMessage] := by
  have h := failureChannelCumulative failureConfig failureBuild failureBuildMessage rfl rfl
  rw [h]
  rfl

/-- A section-3 valid build (status SUCCESS, no source or provenance
descriptor) that reaches both `repo`-rendering formatters. -/
def noDescriptorBuild : Build := { status := "SUCCESS" }

/-- Claim C9, counterexample: not every build reaching the two variants
throws a ReferenceError — with the descriptors absent, both formatters
throw a TypeError at the unguarded `build.source.repoSource` read
(`index.js` line 39 / line 158) before the `repo` reference is ever
evaluated, and a TypeError is not a ReferenceError. -/
theorem typeErrorBeforeRepoRead :
    createSlackMessageA noDescriptorBuild =
        .error (.typeError "cannot read repoSource of undefined") ∧
      createSlackMessageB noDescriptorBuild =
        .error (.typeError "cannot read repoSource of undefined") ∧
      JsError.typeError "cannot read repoSource of undefined" ≠
        JsError.referenceError "repo" :=
  ⟨rfl, rfl, fun h => JsError.noConfusion h⟩

/-- Claim C9, amended: in the two `index.js` variants whose field list
renders `repo`, that variable is never defined, and neither formatter
can return a message for any build — every run throws.  The thrown
error is precisely the ReferenceError for `repo` whenever evaluation
gets past the unguarded descriptor reads (for the first variant: both
descriptor objects present and `repoSource` absent or the sha present;
for the second: all descriptors and the sha present); on other builds
an earlier TypeError fires instead. -/
theorem repoVariableUndefined (b : Build) :
    (∀ m, createSlackMessageA b ≠ .ok m) ∧
      (∀ m, createSlackMessageB b ≠ .ok m) ∧
      (∀ src sp, b.source = some src → b.sourceProvenance = some sp →
        (src.repoSource = none ∨
          (sp.resolvedRepoSource.bind ResolvedRepoSource.commitSha).isSome = true) →
        createSlackMessageA b = .error (.referenceError "repo")) ∧
      (∀ src sp rs c, b.source = some src → src.repoSource = some rs →
        b.sourceProvenance = some sp →
        sp.resolvedRepoSource.bind ResolvedRepoSource.commitSha = some c →
        createSlackMessageB b = .error (.referenceError "repo")) := by
  refine ⟨?_, ?_, ?_, ?_⟩
  · intro m h
    unfold createSlackMessageA at h
    split at h <;> exact Except.noConfusion h
  · intro m h
    obtain ⟨id, status, logUrl, st, ft, im, tg, su, so, spv⟩ := b
    rcases so with _ | ⟨_ | rs⟩ <;>
      rcases spv with _ | ⟨_ | ⟨_ | c, tn⟩⟩ <;>
      simp [createSlackMessageB] at h
  · intro src sp hsrc hsp hdis
    unfold createSlackMessageA
    cases hcl : commitLinkA b with
    | ok s => rfl
    | error e =>
      exfalso
      rcases hdis with hnone | hsha
      · simp [commitLinkA, hsrc, hsp, hnone] at hcl
      · cases hrr : sp.resolvedRepoSource with
        | none => rw [hrr] at hsha; simp at hsha
        | some rrs =>
          rw [hrr] at hsha
          simp only [Option.some_bind] at hsha
          cases hcs : rrs.commitSha with
          | none => rw [hcs] at hsha; simp at hsha
          | some c =>
            cases hrso : src.repoSource with
            | none => simp [commitLinkA, hsrc, hsp, hrso, hrr, hcs] at hcl
            | some rs => simp [commitLinkA, hsrc, hsp, hrso, hrr, hcs] at hcl
  · intro src sp rs c hsrc hrs hsp hc
    cases hrr : sp.resolvedRepoSource with
    | none => rw [hrr] at hc; cases hc
    | some rrs =>
      rw [hrr] at hc
      simp only [Option.some_bind] at hc
      simp [createSlackMessageB, hsrc, hrs, hsp, hrr, hc]

/-- A build whose `source` and `sourceProvenance` are present but whose
`repoSource` key is absent: the first variant reaches the `repo` read. -/
def reachesRepoBuildA : Build :=
  { status := "SUCCESS", source := some ⟨none⟩, sourceProvenance := some ⟨none⟩ }

/-- A build with full descriptors: the second variant reaches the `repo`
read. -/
def reachesRepoBuildB : Build :=
  { status := "SUCCESS",
    source := some ⟨some ⟨some "proj", some "svc", some "main"⟩⟩,
    sourceProvenance := some ⟨some ⟨some "abcdef1234567", none⟩⟩ }

/-- Claim C9, witness: both variants raise the `repo` ReferenceError at
concrete builds that satisfy the reach conditions. -/
theorem repoVariableUndefinedWitness :
    createSlackMessageA reachesRepoBuildA = .error (.referenceError "repo") ∧
      createSlackMessageB reachesRepoBuildB = .error (.referenceError "repo") := by
  constructor
  · exact (repoVariableUndefined reachesRepoBuildA).2.2.1 ⟨none⟩ ⟨none⟩ rfl rfl (Or.inl rfl)
  · exact (repoVariableUndefined reachesRepoBuildB).2.2.2
      ⟨some ⟨some "proj", some "svc", some "main"⟩⟩ ⟨some ⟨some "abcdef1234567", none⟩⟩
      ⟨some "proj", some "svc", some "main"⟩ "abcdef1234567" rfl rfl rfl rfl

/-- Claim C10: the handler of the complete variant formats the message before
applying any filter, so a formatter error — e.g. a status missing from
the status table — aborts the whole invocation even when the policy
would have dropped the event silently. -/
theorem formatPrecedesFilter (cfg : Config) (b : Build) :
    (∀ e, createSlackMessageC b = .error e → subscribeSlackOnBuild cfg b = .error e) ∧
      (statusCodes b.status = none →
        subscribeSlackOnBuild cfg b = .error (.typeError "statusCodes lookup is undefined") ∧
        (b.status ∉ cfg.notifyStatuses → shouldNotify cfg b = (false, false))) := by
  constructor
  · intro e he
    unfold subscribeSlackOnBuild
    rw [he]
  · intro hsc
    have he : createSlackMessageC b = .error (.typeError "statusCodes lookup is undefined") := by
      unfold createSlackMessageC
      rw [hsc]
    constructor
    · unfold subscribeSlackOnBuild
      rw [he]
    · intro hnot
      unfold shouldNotify
      simp [hnot]

/-- Claim C10, witness: status "BOGUS" under the default configuration —
the policy would filter the event out, yet the invocation throws. -/
theorem formatPrecedesFilterWitness :
    subscribeSlackOnBuild defaultConfig bogusStatusBuild =
        .error (.typeError "statusCodes lookup is undefined") ∧
      shouldNotify defaultConfig bogusStatusBuild = (false, false) := by
  obtain ⟨h1, h2⟩ := (formatPrecedesFilter defaultConfig bogusStatusBuild).2 rfl
  exact ⟨h1, h2 (by decide)⟩

/-- Claim C8: the decoder base64-decodes the payload, parses the text as
a single JSON document, and returns it unchanged (no further
validation); it fails exactly when the base64 payload is malformed or
the decoded text is not valid JSON, and on failure the invocation
produces no partial result and no delivery. -/
theorem decoderContract (data : String) :
    (eventToBuildE data = .error DecodeError.badBase64 ↔ base64Decode data = none) ∧
      (∀ bs, base64Decode data = some bs →
        ((eventToBuildE data = .error DecodeError.badJsonText ↔
            jsonParse (utf8ToString bs) = none) ∧
          (∀ j, jsonParse (utf8ToString bs) = some j → eventToBuildE data = .ok j))) ∧
      (∀ cfg e, eventToBuildE data = .error e →
        subscribeSlackRaw cfg data = .error (.decode e)) := by
  refine ⟨⟨?_, ?_⟩, ?_, ?_⟩
  · intro h
    cases hb : base64Decode data with
    | none => rfl
    | some bs =>
      cases hj : jsonParse (utf8ToString bs) with
      | none => simp [eventToBuildE, hb, hj] at h
      | some j => simp [eventToBuildE, hb, hj] at h
  · intro hb
    simp [eventToBuildE, hb]
  · intro bs hb
    refine ⟨⟨?_, ?_⟩, ?_⟩
    · intro h
      cases hj : jsonParse (utf8ToString bs) with
      | none => rfl
      | some j => simp [eventToBuildE, hb, hj] at h
    · intro hj
      simp [eventToBuildE, hb, hj]
    · intro j hj
      simp [eventToBuildE, hb, hj]
  · intro cfg e he
    simp [subscribeSlackRaw, he]

/-- Claim C8, witness: a malformed payload fails and delivers nothing; a
well-formed payload (base64 of `{}`) decodes to the parsed document. -/
theorem decoderContractWitness :
    eventToBuildE "%" = .error DecodeError.badBase64 ∧
      subscribeSlackRaw defaultConfig "%" = .error (.decode DecodeError.badBase64) ∧
      eventToBuildE "e30=" = .ok (Json.obj []) := by
  have h1 := (decoderContract "%").1.mpr rfl
  have h3 := ((decoderContract "e30=").2.1 [123, 125] rfl).2 (Json.obj []) rfl
  exact ⟨h1, (decoderContract "%").2.2 defaultConfig DecodeError.badBase64 h1, h3⟩
